import Mathlib

/-!
Verification of the tool-calling orchestration engine with a safety-gated
query executor (Capstone1/app.py).

Strings are modelled as `List Char`.  Python's `str.upper()` is modelled by
mapping `Char.toUpper` (it agrees on the ASCII text the validator inspects),
and `str.strip()` by removing leading and trailing characters satisfying
`Char.isWhitespace` (Python additionally strips a few rarer whitespace code
points; none can occur inside the all-letter denylist keywords).

The external collaborators are modelled explicitly:
 * the SQLite store is a `Database` value: structural metadata (tables,
   views, reachability) plus the outcome of running a free-text query
   (`pandas.read_sql_query` either yields a data frame, modelled as a list
   of rows, or raises, modelled as `Except.error` carrying `str(e)`), plus
   the outcomes of the five fixed aggregate queries used by
   `get_database_statistics` (SQLite `SUM`/`AVG` yield NULL on an empty
   table, hence the `Option` results);
 * the generative-model backend is a function from the message list sent to
   `client.chat.completions.create` to either a response message or a
   raised error (`Except.error`, again carrying `str(e)`).

Side effects are made observable: `execute_sql_query` additionally returns
the list of free-text SQL queries it actually ran against the store (empty
exactly when no connection was opened), and `process_user_query` returns,
besides its Python return value `(executed_tools, answer)`, the list of
message payloads actually sent to the backend.
-/



/-- Python `str.upper()` restricted to the ASCII mapping. -/
def upperStr (s : List Char) : List Char := s.map Char.toUpper

/-- Python `str.strip()`: drop leading and trailing whitespace. -/
def pyStrip (s : List Char) : List Char :=
  ((s.dropWhile Char.isWhitespace).reverse.dropWhile Char.isWhitespace).reverse

/-- Python truthiness of an optional string: `None` and `""` are falsy. -/
def pyFalsyOptStr : Option (List Char) → Bool
  | none => true
  | some s => s.isEmpty

/-- `DANGEROUS_KEYWORDS`: the fixed denylist of mutating verbs. -/
def DANGEROUS_KEYWORDS : List (List Char) :=
  ["DELETE".data, "DROP".data, "TRUNCATE".data, "ALTER".data,
   "UPDATE".data, "INSERT".data]

/-- The f-string `f"Sorry, \x7bkeyword\x7d operations aren't allowed for safety reasons"`. -/
def dangerMsg (keyword : List Char) : List Char :=
  "Sorry, ".data ++ keyword ++ " operations aren\x27t allowed for safety reasons".data

/-- The rejection message of the SELECT-only rule. -/
def selectOnlyMsg : List Char :=
  "We can only run SELECT queries to keep the data safe".data

/-- `is_safe_query(query)`: normalise by upper-casing and stripping, reject on
the first denylisted keyword occurring as a substring, then reject anything
not starting with `SELECT`.  Returns the Python pair
`(is_safe, error_msg)`. -/
def is_safe_query (query : List Char) : Bool × Option (List Char) :=
  let query_upper := pyStrip (upperStr query)
  match DANGEROUS_KEYWORDS.find? (fun keyword => decide (keyword <:+: query_upper)) with
  | some keyword => (false, some (dangerMsg keyword))
  | none =>
    if "SELECT".data <+: query_upper then (true, none)
    else (false, some selectOnlyMsg)

/- ### The backing store and the query executor -/

/-- A data-frame row: column name to value, as produced by
`df.to_dict('records')`. -/
abbrev Row := List (List Char × Int)

/-- The SQLite store collaborator, as visible to the core: structural
metadata, reachability, the behaviour of `pandas.read_sql_query` on free-text
queries, and the store answers to the five fixed aggregate queries of
`get_database_statistics` (NULL results of `SUM`/`AVG` are `none`; the
`AVG` value is an exact rational standing for the Python float). -/
structure Database where
  tables : List (List Char × List (List Char × List Char))
  views : List (List Char)
  metaOk : Bool
  run : List Char → Except (List Char) (List Row)
  count_rows : Except (List Char) Int
  sum_diabetes : Except (List Char) (Option Int)
  avg_bmi : Except (List Char) (Option Rat)
  sum_highbp : Except (List Char) (Option Int)
  sum_smoker : Except (List Char) (Option Int)

/-- One table block of the schema text:
`"\nTable: \x7bt\x7d\nColumns:\n"` then `"  - \x7bname\x7d (\x7btype\x7d)\n"` per column. -/
def renderTable (t : List Char × List (List Char × List Char)) : List Char :=
  "\nTable: ".data ++ t.1 ++ "\nColumns:\n".data ++
    (t.2.flatMap (fun col => "  - ".data ++ col.1 ++ " (".data ++ col.2 ++ ")\n".data))

/-- The full schema text built by `get_database_schema` from store metadata. -/
def renderSchema (tables : List (List Char × List (List Char × List Char)))
    (views : List (List Char)) : List Char :=
  "Database Schema:\n\n".data ++ tables.flatMap renderTable ++
    (if views.isEmpty then []
     else "\nViews (pre-made summaries):\n".data ++
       views.flatMap (fun v => "  - ".data ++ v ++ "\n".data))

/-- `get_database_schema()`: renders structural metadata only; returns `None`
when the store is unreachable or metadata enumeration fails. -/
def get_database_schema (db : Database) : Option (List Char) :=
  if db.metaOk then some (renderSchema db.tables db.views) else none

/-- The JSON object returned (serialized) by `execute_sql_query`:
either `\x7b"error": msg, "blocked": true\x7d`, or
`\x7b"success": true, "rows": n, "data": rows\x7d`, or
`\x7b"error": msg, "success": false\x7d`. -/
inductive SqlToolResult where
  | blocked (error : Option (List Char))
  | success (rows : Nat) (data : List Row)
  | failure (error : List Char)
deriving DecidableEq

/-- `execute_sql_query(sql_query)`: re-validate via `is_safe_query`; if
blocked, return the blocked object without touching the store; otherwise run
the query, reporting the full row count but at most the first 100 rows, and
turn a store-level exception into the failure object.  The second component
is the list of queries actually run against the store (the connection is
opened exactly when it is nonempty). -/
def execute_sql_query (db : Database) (sql_query : List Char) :
    SqlToolResult × List (List Char) :=
  match is_safe_query sql_query with
  | (false, error_msg) => (SqlToolResult.blocked error_msg, [])
  | (true, _) =>
    match db.run sql_query with
    | Except.ok df => (SqlToolResult.success df.length (df.take 100), [sql_query])
    | Except.error e => (SqlToolResult.failure e, [sql_query])

/- ### Aggregate statistics -/

/-- The stats payload on the happy path (field names as in the source; the
Python floats are exact rationals here). -/
structure Stats where
  total_patients : Int
  diabetic_patients : Option Int
  diabetes_rate_pct : Rat
  avg_bmi : Rat
  high_bp_rate_pct : Rat
  smoker_rate_pct : Rat
deriving DecidableEq

/-- The JSON object returned by `get_database_statistics`: the stats payload
or `\x7b"error": str(e)\x7d`. -/
inductive StatsResult where
  | ok (s : Stats)
  | err (error : List Char)
deriving DecidableEq

/-- Python `round(x, ndigits)` on the exact rational value.  (Python rounds
float ties to even; the tie-breaking convention is irrelevant to every claim
about this function, which only concern the error path.) -/
def pyRound (x : Rat) (ndigits : Nat) : Rat :=
  ((round (x * (10 : Rat) ^ ndigits) : Int) : Rat) / (10 : Rat) ^ ndigits

/-- Python `count / total * 100` where `count` came from a SQL `SUM` (so may
be NULL): `None` raises a `TypeError`, a zero divisor raises
`ZeroDivisionError`; both are exceptions (`Except.error`). -/
def sumRatePct (count : Option Int) (total : Int) : Except (List Char) Rat :=
  match count with
  | none => Except.error "TypeError: unsupported operand type".data
  | some n =>
    if total = 0 then Except.error "ZeroDivisionError: division by zero".data
    else Except.ok ((n : Rat) / (total : Rat) * 100)

/-- The body of the `try` block of `get_database_statistics`: the five fixed
aggregate queries and the unguarded rate computations, any exception
short-circuiting as `Except.error`. -/
def computeStats (db : Database) : Except (List Char) Stats :=
  match db.count_rows with
  | Except.error e => Except.error e
  | Except.ok total =>
    match db.sum_diabetes with
    | Except.error e => Except.error e
    | Except.ok diabetic_count =>
      match sumRatePct diabetic_count total with
      | Except.error e => Except.error e
      | Except.ok diabetes_rate =>
        match db.avg_bmi with
        | Except.error e => Except.error e
        | Except.ok avgOpt =>
          match avgOpt with
          | none => Except.error "TypeError: unsupported operand type".data
          | some avg =>
            match db.sum_highbp with
            | Except.error e => Except.error e
            | Except.ok high_bp_count =>
              match sumRatePct high_bp_count total with
              | Except.error e => Except.error e
              | Except.ok high_bp_rate =>
                match db.sum_smoker with
                | Except.error e => Except.error e
                | Except.ok smoker_count =>
                  match sumRatePct smoker_count total with
                  | Except.error e => Except.error e
                  | Except.ok smoker_rate =>
                    Except.ok
                      { total_patients := total,
                        diabetic_patients := diabetic_count,
                        diabetes_rate_pct := pyRound diabetes_rate 2,
                        avg_bmi := pyRound avg 1,
                        high_bp_rate_pct := pyRound high_bp_rate 1,
                        smoker_rate_pct := pyRound smoker_rate 1 }

/-- `get_database_statistics()`: the `try` block with its catch-all `except`
turning any exception into the error object. -/
def get_database_statistics (db : Database) : StatsResult :=
  match computeStats db with
  | Except.ok s => StatsResult.ok s
  | Except.error e => StatsResult.err e

/- ### Ticketing -/

/-- The JSON object returned by `create_support_ticket`. -/
structure TicketOutput where
  ticket_id : List Char
  status : List Char
  message : List Char
deriving DecidableEq

/-- `create_support_ticket(issue_description, user_question="")`: pure local
construction plus log emission (logging is outside the model); `now` is the
`datetime.now().strftime('%Y%m%d-%H%M%S')` timestamp string.  The two
description arguments are only logged, never inspected, so any value is
accepted for them. -/
def create_support_ticket (now : List Char) : TicketOutput :=
  { ticket_id := "TICKET-".data ++ now,
    status := "created".data,
    message := "Your support ticket has been created and logged for review.".data }

/- ### Tool registry / dispatcher -/

/-- A JSON value appearing in a parsed tool-call argument mapping. -/
inductive JVal where
  | s (v : List Char)
  | n (v : Int)
  | b (v : Bool)
deriving DecidableEq

/-- The argument mapping `json.loads(tool_call.function.arguments)`. -/
abbrev Args := List (List Char × JVal)

/-- One requested tool invocation from the model backend. -/
structure ToolCall where
  id : List Char
  name : List Char
  arguments : Args
deriving DecidableEq

/-- A backend response message: optional text content plus requested tool
calls (`None` and the empty list are identified, as by Python truthiness). -/
structure BackendMessage where
  content : Option (List Char)
  tool_calls : List ToolCall
deriving DecidableEq

/-- The (structured form of the) JSON payload a tool call returns. -/
inductive ToolOutput where
  | sql (result : SqlToolResult)
  | stats (result : StatsResult)
  | ticket (result : TicketOutput)
deriving DecidableEq

/-- One entry of the `messages` list sent to the backend. -/
inductive Msg where
  | system (content : List Char)
  | user (content : List Char)
  | assistant (m : BackendMessage)
  | tool (tool_call_id : List Char) (name : List Char) (content : ToolOutput)
deriving DecidableEq

/-- One entry of the `executed_tools` trace. -/
structure ExecutedTool where
  name : List Char
  args : Args
  result : ToolOutput
deriving DecidableEq

/-- The generative-model backend: from the sent message list to either a
response message or a raised error. -/
abbrev Backend := List Msg → Except (List Char) BackendMessage

/-- The names in the `available_functions` registry. -/
def registryNames : List (List Char) :=
  ["execute_sql_query".data, "get_database_statistics".data,
   "create_support_ticket".data]

/-- First-match lookup in an argument mapping. -/
def lookupArg (args : Args) (k : List Char) : Option JVal :=
  (args.find? (fun p => p.1 == k)).map Prod.snd

/-- Python keyword-argument binding for `f(**args)`: a `TypeError` for a
missing required parameter or an unexpected keyword. -/
def kwargsCheck (fname : List Char) (args : Args)
    (required : List (List Char)) (optional : List (List Char)) :
    Except (List Char) Unit :=
  match required.find? (fun k => (lookupArg args k).isNone) with
  | some k =>
    Except.error ("TypeError: ".data ++ fname ++
      " missing required argument ".data ++ k)
  | none =>
    match args.find? (fun p => !((required ++ optional).contains p.1)) with
    | some p =>
      Except.error ("TypeError: ".data ++ fname ++
        " got an unexpected keyword argument ".data ++ p.1)
    | none => Except.ok ()

/-- One dispatch step: `available_functions[function_name](**function_args)`.
`Except.error` models an exception escaping the dispatch (unknown name is a
`KeyError`; bad keywords a `TypeError`; a non-string `sql_query` an
`AttributeError` at `query.upper()`).  The second component of a successful
result is the free-text SQL run against the store by this call (the
statistics capability uses only its fixed aggregate queries and the ticket
capability never touches the store). -/
def dispatchCall (db : Database) (now : List Char) (fname : List Char)
    (args : Args) : Except (List Char) (ToolOutput × List (List Char)) :=
  if fname = "execute_sql_query".data then
    match kwargsCheck fname args ["sql_query".data] [] with
    | Except.error e => Except.error e
    | Except.ok _ =>
      match lookupArg args "sql_query".data with
      | some (JVal.s q) =>
        let r := execute_sql_query db q
        Except.ok (ToolOutput.sql r.1, r.2)
      | _ =>
        Except.error "AttributeError: object has no attribute upper".data
  else if fname = "get_database_statistics".data then
    match kwargsCheck fname args [] [] with
    | Except.error e => Except.error e
    | Except.ok _ => Except.ok (ToolOutput.stats (get_database_statistics db), [])
  else if fname = "create_support_ticket".data then
    match kwargsCheck fname args ["issue_description".data] ["user_question".data] with
    | Except.error e => Except.error e
    | Except.ok _ => Except.ok (ToolOutput.ticket (create_support_ticket now), [])
  else
    Except.error ("KeyError: ".data ++ fname)

/-- The `for tool_call in tool_calls` loop: dispatch each call in order,
collecting the `executed_tools` entries, the tool-result messages appended
to the conversation, and the store queries run; an exception anywhere
aborts the loop, carrying the store queries already run. -/
def dispatchLoop (db : Database) (now : List Char) :
    List ToolCall →
    Except (List Char × List (List Char))
      (List ExecutedTool × List Msg × List (List Char))
  | [] => Except.ok ([], [], [])
  | c :: rest =>
    match dispatchCall db now c.name c.arguments with
    | Except.error e => Except.error (e, [])
    | Except.ok (out, sq) =>
      match dispatchLoop db now rest with
      | Except.error (e, sqs) => Except.error (e, sq ++ sqs)
      | Except.ok (ts, ms, sqs) =>
        Except.ok ({ name := c.name, args := c.arguments, result := out } :: ts,
          Msg.tool c.id c.name out :: ms, sq ++ sqs)

/- ### Orchestration loop -/

/-- The part of the system prompt before the interpolated schema. -/
def sysPromptPre : List Char :=
  "You\x27re a friendly health data assistant helping people explore CDC diabetes survey data.\n\n".data

/-- The part of the system prompt after the interpolated schema: domain
semantics for the coded fields plus usage guidance, verbatim. -/
def sysPromptPost : List Char :=
  ("\n\nWhat you\x27re working with:\n- Real survey data from the CDC (2014 BRFSS)\n- 253,680 actual patient responses\n- 21 different health indicators\n\nIMPORTANT - How to read the data:\n\nBinary fields (0 or 1):\n- Diabetes_binary: 0 = no diabetes, 1 = has diabetes or prediabetes\n- HighBP: 1 = has high blood pressure, 0 = does not\n- HighChol: 1 = has high cholesterol, 0 = does not\n- Smoker: 1 = current smoker, 0 = not a smoker\n- PhysActivity: 1 = physically active, 0 = not active\n- Sex: 0 = female, 1 = male\n\n".data) ++
  ("Age categories (CRITICAL - Age is NOT actual age, it\x27s a category number):\n- Age = 1: 18-24 years old\n- Age = 2: 25-29 years old\n- Age = 3: 30-34 years old\n- Age = 4: 35-39 years old\n- Age = 5: 40-44 years old\n- Age = 6: 45-49 years old\n- Age = 7: 50-54 years old\n- Age = 8: 55-59 years old\n- Age = 9: 60-64 years old\n- Age = 10: 65-69 years old\n- Age = 11: 70-74 years old\n- Age = 12: 75-79 years old\n- Age = 13: 80+ years old\n\n".data) ++
  ("Examples of age queries:\n- \"under 30\" means Age IN (1, 2)\n- \"over 65\" means Age IN (10, 11, 12, 13)\n- \"between 40 and 60\" means Age IN (5, 6, 7, 8, 9)\n- \"in their 50s\" means Age IN (7, 8)\n\nOther numeric fields:\n- BMI: body mass index (typical range: 15-50, higher = more overweight)\n- GenHlth: general health rating (1 = excellent, 2 = very good, 3 = good, 4 = fair, 5 = poor)\n- MentHlth: number of days with poor mental health in past 30 days (0-30)\n- PhysHlth: number of days with poor physical health in past 30 days (0-30)\n\n".data) ++
  ("How to help:\n- Use execute_sql_query when you need specific data\n- Use get_database_statistics for quick overviews\n- Use create_support_ticket if you can\x27t help\n- Always add LIMIT to queries that might return lots of rows\n- When querying Age, ALWAYS use the category numbers (1-13), never use actual age numbers\n- Explain your findings in plain English, converting Age categories back to age ranges".data)

/-- The full system prompt: schema interpolated between the fixed parts. -/
def mkSystemPrompt (schema : List Char) : List Char :=
  sysPromptPre ++ schema ++ sysPromptPost

/-- The apology returned when schema introspection fails. -/
def schemaApology : List Char :=
  "Sorry, I couldn\x27t access the database structure right now.".data

/-- The apology of the turn-level `except` handler:
`f"Sorry, I ran into a problem: \x7bstr(e)\x7d"`. -/
def problemMsg (e : List Char) : List Char :=
  "Sorry, I ran into a problem: ".data ++ e

/-- The initial `messages` list: system prompt plus the user question. -/
def initialMessages (db : Database) (user_question : List Char) : List Msg :=
  [Msg.system (mkSystemPrompt ((get_database_schema db).getD [])),
   Msg.user user_question]

/-- The value of one orchestration turn: the Python return pair
`(executed_tools, answer)` plus the observable effects — every message
payload sent to the backend and every free-text SQL query run against the
store. -/
structure TurnOutput where
  executed_tools : Option (List ExecutedTool)
  answer : Option (List Char)
  backend_payloads : List (List Msg)
  store_queries : List (List Char)
deriving DecidableEq

/-- `process_user_query(user_question)`: introspect the schema (aborting
with the fixed apology when that fails), send the system context and the
question to the backend, either return its direct answer or dispatch the
single batch of requested tool calls, append each result to the
conversation, ask the backend once more for the final answer, and catch any
exception into the apology path.  The backend is called at most twice; the
second response is only read for its `content`. -/
def process_user_query (db : Database) (backend : Backend) (now : List Char)
    (user_question : List Char) : TurnOutput :=
  if pyFalsyOptStr (get_database_schema db) then
    { executed_tools := none, answer := some schemaApology,
      backend_payloads := [], store_queries := [] }
  else
    let messages0 := initialMessages db user_question
    match backend messages0 with
    | Except.error e =>
      { executed_tools := none, answer := some (problemMsg e),
        backend_payloads := [messages0], store_queries := [] }
    | Except.ok response_message =>
      match response_message.tool_calls with
      | [] =>
        { executed_tools := none, answer := response_message.content,
          backend_payloads := [messages0], store_queries := [] }
      | c :: rest =>
        match dispatchLoop db now (c :: rest) with
        | Except.error (e, sqs) =>
          { executed_tools := none, answer := some (problemMsg e),
            backend_payloads := [messages0], store_queries := sqs }
        | Except.ok (executed_tools, toolMsgs, sqs) =>
          let messages2 := (messages0 ++ [Msg.assistant response_message]) ++ toolMsgs
          match backend messages2 with
          | Except.error e =>
            { executed_tools := none, answer := some (problemMsg e),
              backend_payloads := [messages0, messages2], store_queries := sqs }
          | Except.ok final_response =>
            { executed_tools := some executed_tools,
              answer := final_response.content,
              backend_payloads := [messages0, messages2], store_queries := sqs }

/- ### Instrumentation predicates for the exposure claims -/

/-- The raw row-level data carried by one conversation message: nonempty
only for a successful query-execution tool result. -/
def msgRowData : Msg → List Row
  | Msg.tool _ _ (ToolOutput.sql (SqlToolResult.success _ data)) => data
  | _ => []

/-- All raw rows contained in the payloads sent to the backend. -/
def sentRows (payloads : List (List Msg)) : List Row :=
  payloads.flatMap (fun p => p.flatMap msgRowData)

/-- Bounded row exposure of a tool output: any successful query data has at
most 100 rows. -/
def toolRowsOk : ToolOutput → Bool
  | ToolOutput.sql (SqlToolResult.success _ data) => data.length ≤ 100
  | _ => true

/-- Bounded row exposure of one conversation message. -/
def msgRowsOk : Msg → Bool
  | Msg.tool _ _ out => toolRowsOk out
  | _ => true

/- ### Concrete stores and backends for witnesses and counterexamples -/

/-- A small reachable store holding one row. -/
def dbDemo : Database :=
  { tables := [("patient_health_data".data, [("BMI".data, "REAL".data)])],
    views := [],
    metaOk := true,
    run := fun _ => Except.ok [[("BMI".data, 31)]],
    count_rows := Except.ok 1,
    sum_diabetes := Except.ok (some 0),
    avg_bmi := Except.ok (some 31),
    sum_highbp := Except.ok (some 0),
    sum_smoker := Except.ok (some 0) }

/-- The same store with a 150-row result set. -/
def dbMany : Database :=
  { dbDemo with run := fun _ => Except.ok (List.replicate 150 []) }

/-- The same store made unreachable for metadata introspection. -/
def dbDown : Database := { dbDemo with metaOk := false }

/-- The same store raising a store-level error on every free-text query. -/
def dbErr : Database :=
  { dbDemo with run := fun _ => Except.error "no such table: t".data }

/-- The same store empty: `COUNT(*)` is 0 and the other aggregates NULL. -/
def dbEmptyStats : Database :=
  { dbDemo with
    count_rows := Except.ok 0,
    sum_diabetes := Except.ok none,
    avg_bmi := Except.ok none,
    sum_highbp := Except.ok none,
    sum_smoker := Except.ok none }

/-- A backend that requests one query execution on the first call and
answers directly on the second. -/
def backendRowsDemo : Backend := fun msgs =>
  if msgs.length ≤ 2 then
    Except.ok
      { content := none,
        tool_calls :=
          [{ id := "call_1".data,
             name := "execute_sql_query".data,
             arguments :=
               [("sql_query".data,
                 JVal.s "SELECT BMI FROM patient_health_data".data)] }] }
  else Except.ok { content := some "done".data, tool_calls := [] }

/-- A backend that requests an unknown capability. -/
def backendUnknownTool : Backend := fun _ =>
  Except.ok
    { content := none,
      tool_calls :=
        [{ id := "call_1".data, name := "make_coffee".data, arguments := [] }] }

/- ### String lemmas used to settle the validator claims -/

/-- Reversal preserves the substring (infix) relation. -/
theorem isInfixReverse {α : Type} {l₁ l₂ : List α} (h : l₁ <:+: l₂) :
    l₁.reverse <:+: l₂.reverse := by
  rcases h with ⟨s, t, rfl⟩
  exact ⟨t.reverse, s.reverse, by simp⟩

/-- A nonempty substring none of whose characters satisfies `p` survives
`dropWhile p`. -/
theorem isInfixDropWhile {α : Type} (p : α → Bool) {l₁ : List α}
    (h0 : l₁ ≠ []) (hp : ∀ c ∈ l₁, p c = false) :
    ∀ {l₂ : List α}, l₁ <:+: l₂ → l₁ <:+: l₂.dropWhile p := by
  intro l₂
  induction l₂ with
  | nil => intro h; simpa using h
  | cons x xs ih =>
    intro h
    by_cases hx : p x
    · rw [List.dropWhile_cons_of_pos hx]
      apply ih
      rcases h with ⟨s, t, hst⟩
      cases s with
      | nil =>
        cases l₁ with
        | nil => exact absurd rfl h0
        | cons a l₁' =>
          simp only [List.nil_append, List.cons_append, List.cons.injEq] at hst
          exact absurd (hst.1 ▸ hx) (by simp [hp a (by simp)])
      | cons y s' =>
        simp only [List.cons_append, List.cons.injEq] at hst
        exact ⟨s', t, hst.2⟩
    · rw [List.dropWhile_cons_of_neg hx]
      exact h

/-- A nonempty all-non-whitespace substring survives Python `strip`. -/
theorem isInfixPyStrip {l₁ l₂ : List Char} (h0 : l₁ ≠ [])
    (hp : ∀ c ∈ l₁, c.isWhitespace = false) (h : l₁ <:+: l₂) :
    l₁ <:+: pyStrip l₂ := by
  have h1 : l₁ <:+: l₂.dropWhile Char.isWhitespace :=
    isInfixDropWhile Char.isWhitespace h0 hp h
  have h2 : l₁.reverse <:+: (l₂.dropWhile Char.isWhitespace).reverse :=
    isInfixReverse h1
  have h3 : l₁.reverse <:+:
      ((l₂.dropWhile Char.isWhitespace).reverse.dropWhile Char.isWhitespace) :=
    isInfixDropWhile Char.isWhitespace (by simpa using h0) (by simpa using hp) h2
  have h4 := isInfixReverse h3
  simpa [pyStrip] using h4

/-- The stripped string is a substring of the original. -/
theorem pyStripIsInfix (l : List Char) : pyStrip l <:+: l := by
  rcases List.dropWhile_suffix (l := l) Char.isWhitespace with ⟨s1, hs1⟩
  rcases List.dropWhile_suffix (l := (l.dropWhile Char.isWhitespace).reverse)
    Char.isWhitespace with ⟨s2, hs2⟩
  refine ⟨s1, s2.reverse, ?_⟩
  have hmid : pyStrip l ++ s2.reverse = l.dropWhile Char.isWhitespace := by
    have h := congrArg List.reverse hs2
    simpa [pyStrip] using h
  calc s1 ++ pyStrip l ++ s2.reverse
      = s1 ++ (pyStrip l ++ s2.reverse) := by simp [List.append_assoc]
    _ = s1 ++ l.dropWhile Char.isWhitespace := by rw [hmid]
    _ = l := hs1

/-- Every denylist keyword is nonempty and whitespace-free. -/
theorem dangerousKeywordsWf :
    ∀ kw ∈ DANGEROUS_KEYWORDS, kw ≠ [] ∧ ∀ c ∈ kw, c.isWhitespace = false := by
  decide

/-- C1: every candidate query containing a denylisted verb as a substring
(case-insensitively, anywhere) is rejected by `is_safe_query`, with a reason
naming a denylisted verb occurring in the query — regardless of whether the
query starts with `SELECT`, since the keyword check runs first. -/
theorem c1_denylist_verb_rejected (q kw : List Char)
    (hmem : kw ∈ DANGEROUS_KEYWORDS) (hsub : kw <:+: upperStr q) :
    (is_safe_query q).1 = false ∧
    ∃ kw2 ∈ DANGEROUS_KEYWORDS, kw2 <:+: upperStr q ∧
      (is_safe_query q).2 = some (dangerMsg kw2) ∧ kw2 <:+: dangerMsg kw2 := by
  obtain ⟨h0, hws⟩ := dangerousKeywordsWf kw hmem
  have hstrip : kw <:+: pyStrip (upperStr q) := isInfixPyStrip h0 hws hsub
  cases hfind : DANGEROUS_KEYWORDS.find?
      (fun keyword => decide (keyword <:+: pyStrip (upperStr q))) with
  | none =>
    have hnone := List.find?_eq_none.mp hfind kw hmem
    simp only [decide_eq_true_eq] at hnone
    exact absurd hstrip hnone
  | some kw2 =>
    have hmem2 : kw2 ∈ DANGEROUS_KEYWORDS := List.mem_of_find?_eq_some hfind
    have hp2 := List.find?_some hfind
    simp only [decide_eq_true_eq] at hp2
    have heq : is_safe_query q = (false, some (dangerMsg kw2)) := by
      unfold is_safe_query
      simp only []
      rw [hfind]
    refine ⟨by rw [heq], kw2, hmem2, hp2.trans (pyStripIsInfix (upperStr q)),
      by rw [heq], ?_⟩
    exact ⟨"Sorry, ".data, " operations aren\x27t allowed for safety reasons".data, rfl⟩

/-- Witness for C1 at the spec's own example query. -/
theorem c1_denylist_verb_rejected_witness :
    (is_safe_query "UPDATE t SET x=1".data).1 = false ∧
    ∃ kw2 ∈ DANGEROUS_KEYWORDS, kw2 <:+: upperStr "UPDATE t SET x=1".data ∧
      (is_safe_query "UPDATE t SET x=1".data).2 = some (dangerMsg kw2) ∧
      kw2 <:+: dangerMsg kw2 :=
  c1_denylist_verb_rejected _ "UPDATE".data (by decide) (by decide)

/-- C5: a candidate query containing no denylisted verb and not beginning
with `SELECT` after upper-casing and trimming is rejected with the
SELECT-only reason. -/
theorem c5_non_select_rejected (q : List Char)
    (hno : ∀ kw ∈ DANGEROUS_KEYWORDS, ¬ kw <:+: upperStr q)
    (hsel : ¬ ("SELECT".data <+: pyStrip (upperStr q))) :
    is_safe_query q = (false, some selectOnlyMsg) := by
  have hfind : DANGEROUS_KEYWORDS.find?
      (fun keyword => decide (keyword <:+: pyStrip (upperStr q))) = none := by
    rw [List.find?_eq_none]
    intro kw hkw
    simp only [decide_eq_true_eq]
    intro hc
    exact hno kw hkw (hc.trans (pyStripIsInfix (upperStr q)))
  unfold is_safe_query
  simp only []
  rw [hfind, if_neg hsel]

/-- Witness for C5 at a concrete non-SELECT query. -/
theorem c5_non_select_rejected_witness :
    is_safe_query "SHOW TABLES".data = (false, some selectOnlyMsg) :=
  c5_non_select_rejected _ (by decide) (by decide)

/-- The validator's result is either `(True, None)` or `(False, msg)` with a
string message. -/
theorem is_safe_query_shape (q : List Char) :
    is_safe_query q = (true, none) ∨ ∃ msg, is_safe_query q = (false, some msg) := by
  unfold is_safe_query
  simp only []
  cases hfind : DANGEROUS_KEYWORDS.find?
      (fun keyword => decide (keyword <:+: pyStrip (upperStr q))) with
  | some kw => exact Or.inr ⟨dangerMsg kw, rfl⟩
  | none =>
    by_cases hs : "SELECT".data <+: pyStrip (upperStr q)
    · rw [if_pos hs]; exact Or.inl rfl
    · rw [if_neg hs]; exact Or.inr ⟨selectOnlyMsg, rfl⟩

/-- C2: `execute_sql_query` re-validates internally; every query the safety
validator rejects yields the blocked object (an error string plus the
blocked flag) and runs nothing against the store (its store-query trace is
empty, so no connection is opened). -/
theorem c2_blocked_never_reaches_store (db : Database) (q : List Char)
    (h : (is_safe_query q).1 = false) :
    ∃ msg, execute_sql_query db q = (SqlToolResult.blocked (some msg), []) := by
  rcases is_safe_query_shape q with hq | ⟨msg, hq⟩
  · rw [hq] at h; simp at h
  · exact ⟨msg, by unfold execute_sql_query; rw [hq]⟩

/-- Witness for C2: a `DROP` query is blocked and the store is untouched. -/
theorem c2_blocked_never_reaches_store_witness :
    ∃ msg, execute_sql_query
      { tables := [], views := [], metaOk := true,
        run := fun _ => Except.ok [],
        count_rows := Except.ok 0, sum_diabetes := Except.ok none,
        avg_bmi := Except.ok none, sum_highbp := Except.ok none,
        sum_smoker := Except.ok none }
      "DROP TABLE t".data = (SqlToolResult.blocked (some msg), []) :=
  c2_blocked_never_reaches_store _ "DROP TABLE t".data (by decide)

/-- C3: a successfully executed admitted query reports the exact match count
in `rows` while `data` is the first at most 100 rows; when more than 100
rows match, `data` has length exactly 100 and `rows` still carries the true
count. -/
theorem c3_truncation_bound (db : Database) (q : List Char) (df : List Row)
    (hsafe : (is_safe_query q).1 = true) (hrun : db.run q = Except.ok df) :
    execute_sql_query db q = (SqlToolResult.success df.length (df.take 100), [q]) ∧
    (df.take 100).length ≤ 100 ∧
    (100 < df.length → (df.take 100).length = 100) := by
  rcases is_safe_query_shape q with hq | ⟨msg, hq⟩
  · refine ⟨by unfold execute_sql_query; rw [hq, hrun], ?_, ?_⟩
    · rw [List.length_take]; exact Nat.min_le_left _ _
    · intro h100; rw [List.length_take]; omega
  · rw [hq] at hsafe; simp at hsafe

/-- Witness for C3: an admitted query matching 150 rows reports 150 in
`rows` and returns exactly 100 rows of data. -/
theorem c3_truncation_bound_witness :
    execute_sql_query dbMany "SELECT BMI FROM patient_health_data".data =
      (SqlToolResult.success (List.replicate 150 ([] : Row)).length
        ((List.replicate 150 ([] : Row)).take 100),
       ["SELECT BMI FROM patient_health_data".data]) ∧
    ((List.replicate 150 ([] : Row)).take 100).length ≤ 100 ∧
    (100 < (List.replicate 150 ([] : Row)).length →
      ((List.replicate 150 ([] : Row)).take 100).length = 100) :=
  c3_truncation_bound dbMany _ _ (by decide) rfl

/-- Reduction of the dispatcher on a well-formed query-execution request. -/
theorem dispatchCall_execute_sql (db : Database) (now q : List Char) :
    dispatchCall db now "execute_sql_query".data
      [("sql_query".data, JVal.s q)] =
      Except.ok (ToolOutput.sql (execute_sql_query db q).1,
        (execute_sql_query db q).2) := rfl

/-- Reduction of the dispatcher on a statistics request. -/
theorem dispatchCall_stats (db : Database) (now : List Char) :
    dispatchCall db now "get_database_statistics".data [] =
      Except.ok (ToolOutput.stats (get_database_statistics db), []) := rfl

/-- C9: a store-level failure on an admitted query yields the failure object
carrying the underlying message verbatim, and the dispatcher surfaces it as
an ordinary (non-raising) tool outcome rather than aborting the turn. -/
theorem c9_store_failure_surfaced (db : Database) (now q e : List Char)
    (hsafe : (is_safe_query q).1 = true) (herr : db.run q = Except.error e) :
    execute_sql_query db q = (SqlToolResult.failure e, [q]) ∧
    dispatchCall db now "execute_sql_query".data [("sql_query".data, JVal.s q)] =
      Except.ok (ToolOutput.sql (SqlToolResult.failure e), [q]) := by
  rcases is_safe_query_shape q with hq | ⟨msg, hq⟩
  · have h1 : execute_sql_query db q = (SqlToolResult.failure e, [q]) := by
      unfold execute_sql_query; rw [hq, herr]
    refine ⟨h1, ?_⟩
    rw [dispatchCall_execute_sql, h1]
  · rw [hq] at hsafe; simp at hsafe

/-- Witness for C9 at a concrete failing store. -/
theorem c9_store_failure_surfaced_witness :
    execute_sql_query dbErr "SELECT 1".data =
      (SqlToolResult.failure "no such table: t".data, ["SELECT 1".data]) ∧
    dispatchCall dbErr "20260101-000000".data "execute_sql_query".data
      [("sql_query".data, JVal.s "SELECT 1".data)] =
      Except.ok (ToolOutput.sql (SqlToolResult.failure "no such table: t".data),
        ["SELECT 1".data]) :=
  c9_store_failure_surfaced dbErr _ _ _ (by decide) rfl

/-- A successful `computeStats` forces every aggregate to have succeeded and
the total to be nonzero. -/
theorem computeStats_ok_inv (db : Database) (s : Stats)
    (h : computeStats db = Except.ok s) :
    db.count_rows = Except.ok s.total_patients ∧ s.total_patients ≠ 0 ∧
    (∃ v, db.sum_diabetes = Except.ok v) ∧
    (∃ v, db.avg_bmi = Except.ok (some v)) ∧
    (∃ v, db.sum_highbp = Except.ok v) ∧
    (∃ v, db.sum_smoker = Except.ok v) := by
  unfold computeStats at h
  cases hc : db.count_rows with
  | error e => rw [hc] at h; simp at h
  | ok total =>
    rw [hc] at h; dsimp only at h
    cases hd : db.sum_diabetes with
    | error e => rw [hd] at h; simp at h
    | ok diabetic_count =>
      rw [hd] at h; dsimp only at h
      cases hr : sumRatePct diabetic_count total with
      | error e => rw [hr] at h; simp at h
      | ok diabetes_rate =>
        rw [hr] at h; dsimp only at h
        cases ha : db.avg_bmi with
        | error e => rw [ha] at h; simp at h
        | ok avgOpt =>
          rw [ha] at h; dsimp only at h
          cases avgOpt with
          | none => simp at h
          | some avg =>
            dsimp only at h
            cases hh : db.sum_highbp with
            | error e => rw [hh] at h; simp at h
            | ok high_bp_count =>
              rw [hh] at h; dsimp only at h
              cases hr2 : sumRatePct high_bp_count total with
              | error e => rw [hr2] at h; simp at h
              | ok high_bp_rate =>
                rw [hr2] at h; dsimp only at h
                cases hs : db.sum_smoker with
                | error e => rw [hs] at h; simp at h
                | ok smoker_count =>
                  rw [hs] at h; dsimp only at h
                  cases hr3 : sumRatePct smoker_count total with
                  | error e => rw [hr3] at h; simp at h
                  | ok smoker_rate =>
                    rw [hr3] at h; dsimp only at h
                    rw [Except.ok.injEq] at h
                    subst h
                    refine ⟨rfl, ?_, ⟨diabetic_count, rfl⟩, ⟨avg, rfl⟩,
                      ⟨high_bp_count, rfl⟩, ⟨smoker_count, rfl⟩⟩
                    intro h0
                    dsimp only at h0
                    rw [h0] at hr
                    unfold sumRatePct at hr
                    cases diabetic_count with
                    | none => simp at hr
                    | some n => simp at hr

/-- C10: with a zero total record count, or any failing aggregate query,
`get_database_statistics` does not raise: it returns the error object, and
the dispatcher hands that object back as an ordinary tool outcome. -/
theorem c10_stats_error_object (db : Database) (now : List Char)
    (h : db.count_rows = Except.ok 0 ∨
         (∃ e, db.count_rows = Except.error e) ∨
         (∃ e, db.sum_diabetes = Except.error e) ∨
         (∃ e, db.avg_bmi = Except.error e) ∨
         (∃ e, db.sum_highbp = Except.error e) ∨
         (∃ e, db.sum_smoker = Except.error e)) :
    ∃ msg, get_database_statistics db = StatsResult.err msg ∧
      dispatchCall db now "get_database_statistics".data [] =
        Except.ok (ToolOutput.stats (StatsResult.err msg), []) := by
  cases hcs : computeStats db with
  | error e =>
    have hg : get_database_statistics db = StatsResult.err e := by
      unfold get_database_statistics; rw [hcs]
    exact ⟨e, hg, by rw [dispatchCall_stats, hg]⟩
  | ok s =>
    obtain ⟨hc, h0, ⟨v1, h1⟩, ⟨v2, h2⟩, ⟨v3, h3⟩, ⟨v4, h4⟩⟩ :=
      computeStats_ok_inv db s hcs
    exfalso
    rcases h with h | ⟨e, h⟩ | ⟨e, h⟩ | ⟨e, h⟩ | ⟨e, h⟩ | ⟨e, h⟩
    · rw [h] at hc
      rw [Except.ok.injEq] at hc
      exact h0 hc.symm
    · rw [h] at hc; simp at hc
    · rw [h] at h1; simp at h1
    · rw [h] at h2; simp at h2
    · rw [h] at h3; simp at h3
    · rw [h] at h4; simp at h4

/-- Witness for C10 at the empty store. -/
theorem c10_stats_error_object_witness :
    ∃ msg, get_database_statistics dbEmptyStats = StatsResult.err msg ∧
      dispatchCall dbEmptyStats "20260101-000000".data
        "get_database_statistics".data [] =
        Except.ok (ToolOutput.stats (StatsResult.err msg), []) :=
  c10_stats_error_object dbEmptyStats _ (Or.inl rfl)

/-- A reachable store renders a non-falsy schema text (it always starts with
the fixed header). -/
theorem get_database_schema_not_falsy (db : Database) (h : db.metaOk = true) :
    pyFalsyOptStr (get_database_schema db) = false := by
  unfold get_database_schema
  rw [h]
  rfl

/-- C8: when schema introspection fails, the turn fails immediately: no
backend call is made, no tool is dispatched, the tool trace is `None` and
the answer is the fixed apology. -/
theorem c8_introspection_failure_aborts (db : Database) (backend : Backend)
    (now q : List Char) (h : db.metaOk = false) :
    process_user_query db backend now q =
      { executed_tools := none, answer := some schemaApology,
        backend_payloads := [], store_queries := [] } := by
  unfold process_user_query
  have hg : get_database_schema db = none := by
    unfold get_database_schema; rw [h]; rfl
  rw [hg]
  rfl

/-- Witness for C8 at the unreachable store. -/
theorem c8_introspection_failure_aborts_witness :
    process_user_query dbDown backendRowsDemo "20260101-000000".data
      "How many patients?".data =
      { executed_tools := none, answer := some schemaApology,
        backend_payloads := [], store_queries := [] } :=
  c8_introspection_failure_aborts dbDown backendRowsDemo _ _ rfl

/-- Evaluation of a turn when the first backend call raises. -/
theorem process_backend1_error (db : Database) (backend : Backend)
    (now q e : List Char)
    (hf : pyFalsyOptStr (get_database_schema db) = false)
    (hb : backend (initialMessages db q) = Except.error e) :
    process_user_query db backend now q =
      { executed_tools := none, answer := some (problemMsg e),
        backend_payloads := [initialMessages db q], store_queries := [] } := by
  unfold process_user_query
  rw [hf]
  simp only [Bool.false_eq_true, if_false]
  rw [hb]

/-- Evaluation of a turn answered directly without tool calls. -/
theorem process_direct_answer (db : Database) (backend : Backend)
    (now q : List Char) (resp : BackendMessage)
    (hf : pyFalsyOptStr (get_database_schema db) = false)
    (hb : backend (initialMessages db q) = Except.ok resp)
    (hc : resp.tool_calls = []) :
    process_user_query db backend now q =
      { executed_tools := none, answer := resp.content,
        backend_payloads := [initialMessages db q], store_queries := [] } := by
  unfold process_user_query
  rw [hf]
  simp only [Bool.false_eq_true, if_false]
  rw [hb]
  dsimp only
  rw [hc]

/-- Evaluation of a turn whose tool-dispatch loop raises. -/
theorem process_dispatch_error (db : Database) (backend : Backend)
    (now q : List Char) (resp : BackendMessage) (c : ToolCall)
    (rest : List ToolCall) (e : List Char) (sqs : List (List Char))
    (hf : pyFalsyOptStr (get_database_schema db) = false)
    (hb : backend (initialMessages db q) = Except.ok resp)
    (hc : resp.tool_calls = c :: rest)
    (hl : dispatchLoop db now (c :: rest) = Except.error (e, sqs)) :
    process_user_query db backend now q =
      { executed_tools := none, answer := some (problemMsg e),
        backend_payloads := [initialMessages db q], store_queries := sqs } := by
  unfold process_user_query
  rw [hf]
  simp only [Bool.false_eq_true, if_false]
  rw [hb]
  dsimp only
  rw [hc]
  dsimp only
  rw [hl]

/-- Evaluation of a turn whose second backend call raises. -/
theorem process_backend2_error (db : Database) (backend : Backend)
    (now q : List Char) (resp : BackendMessage) (c : ToolCall)
    (rest : List ToolCall) (ts : List ExecutedTool) (ms : List Msg)
    (sqs : List (List Char)) (e : List Char)
    (hf : pyFalsyOptStr (get_database_schema db) = false)
    (hb : backend (initialMessages db q) = Except.ok resp)
    (hc : resp.tool_calls = c :: rest)
    (hl : dispatchLoop db now (c :: rest) = Except.ok (ts, ms, sqs))
    (hb2 : backend ((initialMessages db q ++ [Msg.assistant resp]) ++ ms) =
      Except.error e) :
    process_user_query db backend now q =
      { executed_tools := none, answer := some (problemMsg e),
        backend_payloads :=
          [initialMessages db q,
           (initialMessages db q ++ [Msg.assistant resp]) ++ ms],
        store_queries := sqs } := by
  unfold process_user_query
  rw [hf]
  simp only [Bool.false_eq_true, if_false]
  rw [hb]
  dsimp only
  rw [hc]
  dsimp only
  rw [hl]
  dsimp only
  rw [hb2]

/-- Evaluation of a complete turn: one tool batch and a final answer. -/
theorem process_full_turn (db : Database) (backend : Backend)
    (now q : List Char) (resp : BackendMessage) (c : ToolCall)
    (rest : List ToolCall) (ts : List ExecutedTool) (ms : List Msg)
    (sqs : List (List Char)) (final_response : BackendMessage)
    (hf : pyFalsyOptStr (get_database_schema db) = false)
    (hb : backend (initialMessages db q) = Except.ok resp)
    (hc : resp.tool_calls = c :: rest)
    (hl : dispatchLoop db now (c :: rest) = Except.ok (ts, ms, sqs))
    (hb2 : backend ((initialMessages db q ++ [Msg.assistant resp]) ++ ms) =
      Except.ok final_response) :
    process_user_query db backend now q =
      { executed_tools := some ts, answer := final_response.content,
        backend_payloads :=
          [initialMessages db q,
           (initialMessages db q ++ [Msg.assistant resp]) ++ ms],
        store_queries := sqs } := by
  unfold process_user_query
  rw [hf]
  simp only [Bool.false_eq_true, if_false]
  rw [hb]
  dsimp only
  rw [hc]
  dsimp only
  rw [hl]
  dsimp only
  rw [hb2]

/-- Evaluation of a turn failed by schema introspection. -/
theorem process_falsy_schema (db : Database) (backend : Backend)
    (now q : List Char)
    (hf : pyFalsyOptStr (get_database_schema db) = true) :
    process_user_query db backend now q =
      { executed_tools := none, answer := some schemaApology,
        backend_payloads := [], store_queries := [] } := by
  unfold process_user_query
  rw [hf]
  simp only [if_true]

/-- A successful dispatch loop executes exactly the requested calls, in
order, with their names and arguments. -/
theorem dispatchLoop_ok_names (db : Database) (now : List Char) :
    ∀ (calls : List ToolCall) (ts : List ExecutedTool) (ms : List Msg)
      (sqs : List (List Char)),
      dispatchLoop db now calls = Except.ok (ts, ms, sqs) →
      ts.map (fun t => (t.name, t.args)) =
        calls.map (fun c => (c.name, c.arguments)) := by
  intro calls
  induction calls with
  | nil =>
    intro ts ms sqs h
    unfold dispatchLoop at h
    rw [Except.ok.injEq, Prod.mk.injEq] at h
    obtain ⟨hts, _⟩ := h
    subst hts
    simp
  | cons c rest ih =>
    intro ts ms sqs h
    unfold dispatchLoop at h
    cases hd : dispatchCall db now c.name c.arguments with
    | error e => rw [hd] at h; simp at h
    | ok pr =>
      obtain ⟨out, sq⟩ := pr
      rw [hd] at h
      dsimp only at h
      cases hl : dispatchLoop db now rest with
      | error pe => obtain ⟨e, sqs2⟩ := pe; rw [hl] at h; simp at h
      | ok tr =>
        obtain ⟨ts2, ms2, sqs2⟩ := tr
        rw [hl] at h
        dsimp only at h
        rw [Except.ok.injEq, Prod.mk.injEq] at h
        obtain ⟨hts, _⟩ := h
        subst hts
        simp only [List.map_cons]
        rw [ih ts2 ms2 sqs2 hl]

/-- C7: every user turn sends at most 2 payloads to the backend, and any
returned tool trace corresponds one-to-one (names and arguments, in order)
to the tool calls requested by the FIRST backend response — tool calls in
the second response are never dispatched. -/
theorem c7_single_dispatch_round (db : Database) (backend : Backend)
    (now q : List Char) :
    (process_user_query db backend now q).backend_payloads.length ≤ 2 ∧
    (∀ ts, (process_user_query db backend now q).executed_tools = some ts →
      ∃ resp, backend (initialMessages db q) = Except.ok resp ∧
        ts.map (fun t => (t.name, t.args)) =
          resp.tool_calls.map (fun c => (c.name, c.arguments))) := by
  cases hf : pyFalsyOptStr (get_database_schema db) with
  | true => rw [process_falsy_schema db backend now q hf]; simp
  | false =>
    cases hb : backend (initialMessages db q) with
    | error e => rw [process_backend1_error db backend now q e hf hb]; simp
    | ok resp =>
      cases hcalls : resp.tool_calls with
      | nil => rw [process_direct_answer db backend now q resp hf hb hcalls]; simp
      | cons c rest =>
        cases hl : dispatchLoop db now (c :: rest) with
        | error pe =>
          obtain ⟨e, sqs⟩ := pe
          rw [process_dispatch_error db backend now q resp c rest e sqs hf hb
            hcalls hl]
          simp
        | ok tr =>
          obtain ⟨ts2, ms2, sqs2⟩ := tr
          cases hb2 : backend ((initialMessages db q ++ [Msg.assistant resp]) ++ ms2) with
          | error e =>
            rw [process_backend2_error db backend now q resp c rest ts2 ms2
              sqs2 e hf hb hcalls hl hb2]
            simp
          | ok final_response =>
            rw [process_full_turn db backend now q resp c rest ts2 ms2 sqs2
              final_response hf hb hcalls hl hb2]
            refine ⟨by simp, ?_⟩
            intro ts hts
            simp only [Option.some.injEq] at hts
            subst hts
            refine ⟨resp, rfl, ?_⟩
            rw [hcalls]
            exact dispatchLoop_ok_names db now (c :: rest) ts2 ms2 sqs2 hl

/-- C6 counterexample: a tool request with an unknown capability name does
NOT degrade to a reported tool failure: dispatch raises (`KeyError`), the
turn-level handler catches it, and the turn ends with no tool trace and the
generic apology — contradicting the claim that malformed requests never
raise past the dispatcher and are appended as Err outcomes. -/
theorem c6_counterexample :
    dispatchCall dbDemo "20260101-000000".data "make_coffee".data [] =
      Except.error ("KeyError: ".data ++ "make_coffee".data) ∧
    (process_user_query dbDemo backendUnknownTool "20260101-000000".data
      "q".data).executed_tools = none ∧
    (process_user_query dbDemo backendUnknownTool "20260101-000000".data
      "q".data).answer =
      some (problemMsg ("KeyError: ".data ++ "make_coffee".data)) :=
  ⟨rfl, rfl, rfl⟩

/-- C6 (amended): a malformed tool invocation at the head of the batch
(unknown capability name, or a query-execution request missing its required
`sql_query` argument) raises out of the dispatcher and is caught by the
turn-level handler: the turn ends with no tool trace and the
`"Sorry, I ran into a problem: ..."` apology — a turn-ending fault, not a
reported tool outcome. -/
theorem c6_malformed_request_fails_turn (db : Database) (backend : Backend)
    (now q : List Char) (resp : BackendMessage) (c : ToolCall)
    (rest : List ToolCall)
    (hmeta : db.metaOk = true)
    (hb : backend (initialMessages db q) = Except.ok resp)
    (hc : resp.tool_calls = c :: rest)
    (hmal : c.name ∉ registryNames ∨
      (c.name = "execute_sql_query".data ∧
        lookupArg c.arguments "sql_query".data = none)) :
    ∃ e, process_user_query db backend now q =
      { executed_tools := none, answer := some (problemMsg e),
        backend_payloads := [initialMessages db q], store_queries := [] } := by
  have hf := get_database_schema_not_falsy db hmeta
  have hdc : ∃ e, dispatchCall db now c.name c.arguments = Except.error e := by
    rcases hmal with hun | ⟨hname, hnone⟩
    · have h1 : ¬ (c.name = "execute_sql_query".data) := by
        intro h; exact hun (by rw [h]; simp [registryNames])
      have h2 : ¬ (c.name = "get_database_statistics".data) := by
        intro h; exact hun (by rw [h]; simp [registryNames])
      have h3 : ¬ (c.name = "create_support_ticket".data) := by
        intro h; exact hun (by rw [h]; simp [registryNames])
      refine ⟨"KeyError: ".data ++ c.name, ?_⟩
      unfold dispatchCall
      rw [if_neg h1, if_neg h2, if_neg h3]
    · refine ⟨"TypeError: ".data ++ c.name ++
        " missing required argument ".data ++ "sql_query".data, ?_⟩
      unfold dispatchCall
      rw [if_pos hname]
      have hk : kwargsCheck c.name c.arguments ["sql_query".data] [] =
          Except.error ("TypeError: ".data ++ c.name ++
            " missing required argument ".data ++ "sql_query".data) := by
        unfold kwargsCheck
        have hfind : (["sql_query".data].find?
            (fun k => (lookupArg c.arguments k).isNone)) =
            some "sql_query".data :=
          List.find?_cons_of_pos _
            (by show (lookupArg c.arguments "sql_query".data).isNone = true
                rw [hnone]; rfl)
        rw [hfind]
      rw [hk]
  obtain ⟨e, hdce⟩ := hdc
  have hl : dispatchLoop db now (c :: rest) = Except.error (e, []) := by
    unfold dispatchLoop
    rw [hdce]
  exact ⟨e, process_dispatch_error db backend now q resp c rest e [] hf hb hc hl⟩

/-- Witness for the amended C6 at a concrete unknown-capability request. -/
theorem c6_malformed_request_fails_turn_witness :
    ∃ e, process_user_query dbDemo backendUnknownTool "20260101-000000".data
      "q".data =
      { executed_tools := none, answer := some (problemMsg e),
        backend_payloads := [initialMessages dbDemo "q".data],
        store_queries := [] } :=
  c6_malformed_request_fails_turn dbDemo backendUnknownTool
    "20260101-000000".data "q".data
    { content := none,
      tool_calls :=
        [{ id := "call_1".data, name := "make_coffee".data, arguments := [] }] }
    { id := "call_1".data, name := "make_coffee".data, arguments := [] } []
    rfl rfl rfl (Or.inl (by decide))

/-- Witness for C7 at a concrete full turn with one query execution. -/
theorem c7_single_dispatch_round_witness :
    (process_user_query dbDemo backendRowsDemo "20260101-000000".data
      "Show me BMI".data).backend_payloads.length ≤ 2 ∧
    (∃ resp, backendRowsDemo (initialMessages dbDemo "Show me BMI".data) =
        Except.ok resp ∧
      ([{ name := "execute_sql_query".data,
          args := [("sql_query".data,
            JVal.s "SELECT BMI FROM patient_health_data".data)],
          result := ToolOutput.sql
            (SqlToolResult.success 1 [[("BMI".data, 31)]]) }] :
        List ExecutedTool).map (fun t => (t.name, t.args)) =
        resp.tool_calls.map (fun c => (c.name, c.arguments))) :=
  ⟨(c7_single_dispatch_round dbDemo backendRowsDemo "20260101-000000".data
      "Show me BMI".data).1,
   (c7_single_dispatch_round dbDemo backendRowsDemo "20260101-000000".data
      "Show me BMI".data).2 _ rfl⟩

/-- Every query-execution result is bounded to 100 rows of data. -/
theorem execute_sql_rowsOk (db : Database) (q : List Char) :
    toolRowsOk (ToolOutput.sql (execute_sql_query db q).1) = true := by
  unfold execute_sql_query
  rcases is_safe_query_shape q with hq | ⟨msg, hq⟩ <;> rw [hq]
  · cases db.run q with
    | ok df => simp [toolRowsOk, List.length_take]
    | error e => rfl
  · rfl

/-- Every tool output a successful dispatch produces is bounded to 100 rows
of data. -/
theorem dispatchCall_ok_rowsOk (db : Database) (now fname : List Char)
    (args : Args) (out : ToolOutput) (sqs : List (List Char))
    (h : dispatchCall db now fname args = Except.ok (out, sqs)) :
    toolRowsOk out = true := by
  unfold dispatchCall at h
  by_cases h1 : fname = "execute_sql_query".data
  · rw [if_pos h1] at h
    cases hk : kwargsCheck fname args ["sql_query".data] [] with
    | error e => rw [hk] at h; simp at h
    | ok u =>
      rw [hk] at h
      dsimp only at h
      cases hl : lookupArg args "sql_query".data with
      | none => rw [hl] at h; simp at h
      | some v =>
        rw [hl] at h
        cases v with
        | s qv =>
          dsimp only at h
          rw [Except.ok.injEq, Prod.mk.injEq] at h
          obtain ⟨hout, _⟩ := h
          subst hout
          exact execute_sql_rowsOk db qv
        | n nv => simp at h
        | b bv => simp at h
  · rw [if_neg h1] at h
    by_cases h2 : fname = "get_database_statistics".data
    · rw [if_pos h2] at h
      cases hk : kwargsCheck fname args [] [] with
      | error e => rw [hk] at h; simp at h
      | ok u =>
        rw [hk] at h
        dsimp only at h
        rw [Except.ok.injEq, Prod.mk.injEq] at h
        obtain ⟨hout, _⟩ := h
        subst hout
        rfl
    · rw [if_neg h2] at h
      by_cases h3 : fname = "create_support_ticket".data
      · rw [if_pos h3] at h
        cases hk : kwargsCheck fname args ["issue_description".data]
            ["user_question".data] with
        | error e => rw [hk] at h; simp at h
        | ok u =>
          rw [hk] at h
          dsimp only at h
          rw [Except.ok.injEq, Prod.mk.injEq] at h
          obtain ⟨hout, _⟩ := h
          subst hout
          rfl
      · rw [if_neg h3] at h
        simp at h

/-- Every tool-result message a successful dispatch loop appends is bounded
to 100 rows of data. -/
theorem dispatchLoop_ok_rowsOk (db : Database) (now : List Char) :
    ∀ (calls : List ToolCall) (ts : List ExecutedTool) (ms : List Msg)
      (sqs : List (List Char)),
      dispatchLoop db now calls = Except.ok (ts, ms, sqs) →
      ∀ m ∈ ms, msgRowsOk m = true := by
  intro calls
  induction calls with
  | nil =>
    intro ts ms sqs h
    unfold dispatchLoop at h
    rw [Except.ok.injEq, Prod.mk.injEq] at h
    obtain ⟨_, h2⟩ := h
    rw [Prod.mk.injEq] at h2
    obtain ⟨hms, _⟩ := h2
    subst hms
    intro m hm
    simp at hm
  | cons c rest ih =>
    intro ts ms sqs h
    unfold dispatchLoop at h
    cases hd : dispatchCall db now c.name c.arguments with
    | error e => rw [hd] at h; simp at h
    | ok pr =>
      obtain ⟨out, sq⟩ := pr
      rw [hd] at h
      dsimp only at h
      cases hl : dispatchLoop db now rest with
      | error pe => obtain ⟨e, sqs2⟩ := pe; rw [hl] at h; simp at h
      | ok tr =>
        obtain ⟨ts2, ms2, sqs2⟩ := tr
        rw [hl] at h
        dsimp only at h
        rw [Except.ok.injEq, Prod.mk.injEq] at h
        obtain ⟨_, h2⟩ := h
        rw [Prod.mk.injEq] at h2
        obtain ⟨hms, _⟩ := h2
        subst hms
        intro m hm
        rcases List.mem_cons.mp hm with rfl | hm2
        · exact dispatchCall_ok_rowsOk db now c.name c.arguments out sq hd
        · exact ih ts2 ms2 sqs2 hl m hm2

/-- The initial payload carries no row data. -/
theorem initialMessages_noRows (db : Database) (q : List Char) :
    (initialMessages db q).flatMap msgRowData = [] := rfl

/-- Every message of the initial payload is row-bounded. -/
theorem initialMessages_rowsOk (db : Database) (q : List Char) :
    ∀ m ∈ initialMessages db q, msgRowsOk m = true := by
  intro m hm
  rcases List.mem_cons.mp hm with rfl | hm2
  · rfl
  · rcases List.mem_cons.mp hm2 with rfl | hm3
    · rfl
    · simp at hm3

/-- C4 counterexample: there is a turn in which raw row-level data from the
store IS sent to the model backend — the tool-result message appended for
the second backend call carries the query's row values, so the claim that
the model never receives row values is false. -/
theorem c4_counterexample :
    sentRows (process_user_query dbDemo backendRowsDemo "20260101-000000".data
      "Show me BMI".data).backend_payloads ≠ [] := by
  intro h
  have he : sentRows (process_user_query dbDemo backendRowsDemo
      "20260101-000000".data "Show me BMI".data).backend_payloads =
      [[("BMI".data, 31)]] := rfl
  rw [he] at h
  simp at h

/-- C4 (amended): the FIRST backend payload of every turn carries no
row-level data (only the schema-bearing system prompt and the user
question), and every message in every payload sent to the backend is
row-bounded: a tool result can expose at most 100 rows. -/
theorem c4_bounded_row_exposure (db : Database) (backend : Backend)
    (now q : List Char) :
    (∀ p, (process_user_query db backend now q).backend_payloads.head? =
        some p → p.flatMap msgRowData = []) ∧
    (∀ p ∈ (process_user_query db backend now q).backend_payloads,
      ∀ m ∈ p, msgRowsOk m = true) := by
  cases hf : pyFalsyOptStr (get_database_schema db) with
  | true =>
    rw [process_falsy_schema db backend now q hf]
    exact ⟨fun p hp => by simp at hp, fun p hp => by simp at hp⟩
  | false =>
    cases hb : backend (initialMessages db q) with
    | error e =>
      rw [process_backend1_error db backend now q e hf hb]
      refine ⟨?_, ?_⟩
      · intro p hp
        simp only [List.head?_cons, Option.some.injEq] at hp
        subst hp
        exact initialMessages_noRows db q
      · intro p hp m hm
        simp only [List.mem_singleton] at hp
        subst hp
        exact initialMessages_rowsOk db q m hm
    | ok resp =>
      cases hcalls : resp.tool_calls with
      | nil =>
        rw [process_direct_answer db backend now q resp hf hb hcalls]
        refine ⟨?_, ?_⟩
        · intro p hp
          simp only [List.head?_cons, Option.some.injEq] at hp
          subst hp
          exact initialMessages_noRows db q
        · intro p hp m hm
          simp only [List.mem_singleton] at hp
          subst hp
          exact initialMessages_rowsOk db q m hm
      | cons c rest =>
        cases hl : dispatchLoop db now (c :: rest) with
        | error pe =>
          obtain ⟨e, sqs⟩ := pe
          rw [process_dispatch_error db backend now q resp c rest e sqs hf hb
            hcalls hl]
          refine ⟨?_, ?_⟩
          · intro p hp
            simp only [List.head?_cons, Option.some.injEq] at hp
            subst hp
            exact initialMessages_noRows db q
          · intro p hp m hm
            simp only [List.mem_singleton] at hp
            subst hp
            exact initialMessages_rowsOk db q m hm
        | ok tr =>
          obtain ⟨ts2, ms2, sqs2⟩ := tr
          have hsecond : ∀ m ∈ (initialMessages db q ++
              [Msg.assistant resp]) ++ ms2, msgRowsOk m = true := by
            intro m hm
            rcases List.mem_append.mp hm with hm1 | hm2
            · rcases List.mem_append.mp hm1 with hma | hmb
              · exact initialMessages_rowsOk db q m hma
              · rcases List.mem_singleton.mp hmb with rfl
                rfl
            · exact dispatchLoop_ok_rowsOk db now (c :: rest) ts2 ms2 sqs2 hl
                m hm2
          cases hb2 : backend ((initialMessages db q ++
              [Msg.assistant resp]) ++ ms2) with
          | error e =>
            rw [process_backend2_error db backend now q resp c rest ts2 ms2
              sqs2 e hf hb hcalls hl hb2]
            refine ⟨?_, ?_⟩
            · intro p hp
              simp only [List.head?_cons, Option.some.injEq] at hp
              subst hp
              exact initialMessages_noRows db q
            · intro p hp m hm
              rcases List.mem_cons.mp hp with rfl | hp2
              · exact initialMessages_rowsOk db q m hm
              · rcases List.mem_singleton.mp hp2 with rfl
                exact hsecond m hm
          | ok final_response =>
            rw [process_full_turn db backend now q resp c rest ts2 ms2 sqs2
              final_response hf hb hcalls hl hb2]
            refine ⟨?_, ?_⟩
            · intro p hp
              simp only [List.head?_cons, Option.some.injEq] at hp
              subst hp
              exact initialMessages_noRows db q
            · intro p hp m hm
              rcases List.mem_cons.mp hp with rfl | hp2
              · exact initialMessages_rowsOk db q m hm
              · rcases List.mem_singleton.mp hp2 with rfl
                exact hsecond m hm

/-- Witness for the amended C4 at a concrete full turn. -/
theorem c4_bounded_row_exposure_witness :
    (initialMessages dbDemo "Show me BMI".data).flatMap msgRowData = [] ∧
    msgRowsOk (Msg.user "Show me BMI".data) = true :=
  ⟨(c4_bounded_row_exposure dbDemo backendRowsDemo "20260101-000000".data
      "Show me BMI".data).1 (initialMessages dbDemo "Show me BMI".data) rfl,
   (c4_bounded_row_exposure dbDemo backendRowsDemo "20260101-000000".data
      "Show me BMI".data).2 (initialMessages dbDemo "Show me BMI".data)
     (List.Mem.head _) (Msg.user "Show me BMI".data)
     (List.Mem.tail _ (List.Mem.head _))⟩
